import Mathlib

/-!
Verification of the `telegram_simple_rag` bot against its specification.

The repository has two near-duplicate bot variants (`tg_rag/bot.py` and
`tg_rag_smolagents/bot.py`) sharing one utility module
(`tg_rag_smolagents/utils.py`).  Both variants have identical control flow in
the handlers modelled here, so a single embedding covers both.

External collaborators (Telegram transport, Docling parser, HuggingFace
embeddings, Qdrant client, OpenAI-compatible chat endpoint, and the
`SentenceTransformersTokenTextSplitter` tokeniser) are modelled as parameters
bundled in `Ext`, or — where the claims constrain their observable behaviour —
as functions following their published contracts and the configuration the
source passes to them.
-/

namespace TgRag

/-- A parsed document unit (langchain `Document`): text content plus source
metadata.  Produced by the external parser. -/
structure Document where
  page_content : String
  meta : String
deriving DecidableEq, Repr

/-- A chunk: a token-bounded slice of a document, carrying the parent
document's metadata.  We keep the token sequence itself (token ids as `Nat`)
since the claims speak about token lengths and token overlaps. -/
structure Chunk where
  tokens : List Nat
  meta : String
deriving DecidableEq, Repr

/-- A Telegram document attachment: `file_name` may be absent. -/
structure TgDocument where
  file_name : Option String
deriving DecidableEq, Repr

/-- A Telegram message: optional text and optional document attachment. -/
structure Message where
  text : Option String
  document : Option TgDocument
deriving DecidableEq, Repr

/-- An inbound update: optional sender id (`update.effective_user.id`,
an integer in Telegram, modelled as `Nat`) and optional message payload. -/
structure Update where
  effective_user : Option Nat
  message : Option Message
deriving DecidableEq, Repr

/-- Environment variables read by the program (`os.getenv` returns `None`
when a variable is unset; Python truthiness also rejects the empty string). -/
structure Env where
  telegramBotToken : Option String
  allowedUserId : Option String
  openaiApiKey : Option String
  openaiApiBaseUrl : Option String
deriving DecidableEq, Repr

/-- Python falsiness of an optional environment string: `not x` is true when
the variable is unset or empty. -/
def isFalsy : Option String → Bool
  | none => true
  | some s => s.isEmpty

/-- Process-held mutable state: the session identifier list (`uuids` in
`bot.py`), the fresh-identifier counter (modelling `uuid4()` as a supply of
never-before-used identifiers), and the vector store contents
(identifier/chunk records). -/
structure MsgState where
  uuids : List Nat
  nextId : Nat
  store : List (Nat × Chunk)
deriving DecidableEq, Repr

/-- Observable outcome of one handler run: the post state, the replies sent
(in order), how many chat-completion calls (`model.ainvoke`), parser calls
(`parse_document`) and vector-store insert calls (`aadd_documents`) were
made, and whether `cleanup_file` ran on the uploaded file. -/
structure HandlerOut where
  state : MsgState
  replies : List String
  llmCalls : Nat
  parseCalls : Nat
  insertCalls : Nat
  cleaned : Bool
deriving DecidableEq, Repr

/-- External collaborators, as observed through their call interfaces:
`retrieve` is `RETIREVER.invoke`; `llm` is the chat-completion endpoint's
answer; `delete` is `VECTOR_STORE.delete` (an exception is `Except.error`);
`parse` is `parse_document` on the saved file (Docling may fail); `tokenize`
is the splitter's tokeniser on a document's text; `detok` decodes a token
window back to chunk text; `insertOk` tells whether `aadd_documents`
succeeds (it raises otherwise). -/
structure Ext where
  retrieve : String → List Chunk
  llm : String → List Chunk → String
  delete : List Nat → Except String Bool
  parse : String → Except String (List Document)
  tokenize : String → List Nat
  detok : List Nat → String
  insertOk : Bool

/-! ### The token splitter

`update_store` configures `SentenceTransformersTokenTextSplitter` with
`tokens_per_chunk=512` and `chunk_overlap=50`.  The splitter is third-party
code; per its published contract it slides a window of `tokens_per_chunk`
tokens over the token sequence with stride `tokens_per_chunk - chunk_overlap`
(= 462), so consecutive windows share `chunk_overlap` tokens.  We embed that
sliding window, fuelled by the input length to keep it structurally
recursive (the fuel is always sufficient: each step consumes at least one
token when `stride ≥ 1`). -/

/-- Sliding-window split of a token list, structural on `fuel`. -/
def splitTokensGo (chunkSize stride : Nat) : Nat → List Nat → List (List Nat)
  | _, [] => []
  | 0, ts => [ts]
  | fuel + 1, ts =>
    if ts.length ≤ chunkSize then [ts]
    else ts.take chunkSize :: splitTokensGo chunkSize stride fuel (ts.drop stride)

/-- Split a token list into windows of at most `chunkSize` tokens advancing
by `stride` tokens. -/
def splitTokens (chunkSize stride : Nat) (ts : List Nat) : List (List Nat) :=
  splitTokensGo chunkSize stride ts.length ts

/-- The chunks obtained from one document with the configuration used in
`update_store` (`tokens_per_chunk=512`, `chunk_overlap=50`, stride 462);
each chunk inherits the parent document's metadata. -/
def docChunks (tok : String → List Nat) (d : Document) : List Chunk :=
  (splitTokens 512 462 (tok d.page_content)).map (fun ts => ⟨ts, d.meta⟩)

/-- `splitter.split_documents(docs)`: split every document, concatenating the
per-document chunk sequences in order. -/
def split_documents (tok : String → List Nat) (docs : List Document) : List Chunk :=
  docs.flatMap (docChunks tok)

/-! ### `update_store` (tg_rag_smolagents/utils.py, lines 59–75)

Splits the documents, draws one fresh identifier per chunk (`uuid4()`,
modelled as consecutive values of the fresh counter), inserts the batch
(`aadd_documents`, which may raise), and returns the identifier → chunk
mapping as an association list in insertion order. -/

/-- One fresh identifier per chunk: `str(uuid4())` draws identifiers that
were never produced before; we model the supply as consecutive values of
the process-wide fresh counter. -/
def freshIds (nextId n : Nat) : List Nat :=
  (List.range n).map (fun i => nextId + i)

/-- Result of a successful `update_store`: the returned mapping and the
advanced fresh-identifier counter. -/
def update_store (ext : Ext) (nextId : Nat) (docs : List Document) :
    Except String (List (Nat × Chunk) × Nat) :=
  let splitted := split_documents ext.tokenize docs
  let ids := freshIds nextId splitted.length
  if ext.insertOk then
    Except.ok (ids.zip splitted, nextId + splitted.length)
  else
    Except.error "insert failed"

/-! ### The handlers (bot.py) -/

/-- `handle_reset` (tg_rag/bot.py 56–70; inlined at tg_rag_smolagents/bot.py
45–60).  Python short-circuits `uuids and VECTOR_STORE.delete(uuids)`: with
an empty session set the delete is never called and the failure reply is
sent; otherwise the store's answer (or exception) decides.  On success the
session list is cleared and the deleted records leave the store. -/
def handle_reset (ext : Ext) (st : MsgState) : HandlerOut :=
  match st.uuids with
  | [] => ⟨st, ["Failed to reset the vector store."], 0, 0, 0, false⟩
  | _ :: _ =>
    match ext.delete st.uuids with
    | Except.ok true =>
      ⟨⟨[], st.nextId, st.store.filter (fun p => ¬ st.uuids.contains p.1)⟩,
        ["Vector store reset successfully."], 0, 0, 0, false⟩
    | Except.ok false =>
      ⟨st, ["Failed to reset the vector store."], 0, 0, 0, false⟩
    | Except.error e =>
      ⟨st, ["An error occurred while resetting the vector store: " ++ e], 0, 0, 0, false⟩

/-- `query_openai_llm` (tg_rag/bot.py 95–117): reads the completion
credentials from the environment at call time; a falsy base URL, then a
falsy key, each raise a `ValueError` before any endpoint call; otherwise the
endpoint is invoked. -/
def query_openai_llm (ext : Ext) (env : Env) (user_message : String)
    (retrieved_docs : List Chunk) : Except String String :=
  if isFalsy env.openaiApiBaseUrl then Except.error "OpenAI API base URL is missing."
  else if isFalsy env.openaiApiKey then Except.error "OpenAI API key is missing."
  else Except.ok (ext.llm user_message retrieved_docs)

/-- `handle_text_message` (tg_rag/bot.py 73–92): reject falsy text; retrieve;
on an empty result reply the no-documents message and stop; otherwise call
the completion endpoint through `query_openai_llm`, whose `ValueError`s are
caught by the surrounding `except` and reported.  `llmCalls` counts calls of
`model.ainvoke`. -/
def handle_text_message (ext : Ext) (env : Env) (st : MsgState)
    (text : Option String) : HandlerOut :=
  match text with
  | none => ⟨st, ["Please send a valid text message."], 0, 0, 0, false⟩
  | some t =>
    if t.isEmpty then ⟨st, ["Please send a valid text message."], 0, 0, 0, false⟩
    else
      match ext.retrieve t with
      | [] => ⟨st, ["No relevant documents found for your query."], 0, 0, 0, false⟩
      | d :: ds =>
        match query_openai_llm ext env t (d :: ds) with
        | Except.ok r => ⟨st, ["LLM's response: " ++ r], 1, 0, 0, false⟩
        | Except.error e =>
          ⟨st, ["An error occurred while processing your query: " ++ e], 0, 0, 0, false⟩

/-- `handle_file_upload` + `process_file` (tg_rag/bot.py 120–160; inlined at
tg_rag_smolagents/bot.py 105–138): validate the attachment and its name,
acknowledge, then parse → `update_store` → preview the first mapping entry →
extend `uuids` with the mapping's keys.  Any exception from processing is
caught, reported, and only then is `cleanup_file` run on the uploaded file;
the success path performs no cleanup. -/
def handle_file_upload (ext : Ext) (st : MsgState) (m : Message) : HandlerOut :=
  match m.document with
  | none => ⟨st, ["Please send a valid file."], 0, 0, 0, false⟩
  | some f =>
    match f.file_name with
    | none => ⟨st, ["File name is missing."], 0, 0, 0, false⟩
    | some name =>
      let r0 := ["File '" ++ name ++ "' received. Processing..."]
      match ext.parse name with
      | Except.error e =>
        ⟨st, r0 ++ ["An error occurred while processing the file: " ++ e,
          "File cleaned up successfully."], 0, 1, 0, true⟩
      | Except.ok docs =>
        match update_store ext st.nextId docs with
        | Except.error e =>
          ⟨st, r0 ++ ["An error occurred while processing the file: " ++ e,
            "File cleaned up successfully."], 0, 1, 1, true⟩
        | Except.ok (mapping, nextId) =>
          let preview :=
            match mapping with
            | [] => []
            | (u, c) :: _ =>
              ["- " ++ toString u ++ ": " ++ (ext.detok c.tokens).take 100 ++ "...\n"]
          ⟨⟨st.uuids ++ mapping.map Prod.fst, nextId, st.store ++ mapping⟩,
            r0 ++ ["File processed successfully! Here's a preview:\n"] ++ preview,
            0, 1, 1, false⟩

/-- `handle_message` (tg_rag/bot.py 39–54; same dispatch inlined at
tg_rag_smolagents/bot.py 39–43 + branches): no message payload → return at
once; text starting with `"RESET"` → reset; a message without a document →
text handler; otherwise file handler. -/
def handle_message (ext : Ext) (env : Env) (st : MsgState) (u : Update) : HandlerOut :=
  match u.message with
  | none => ⟨st, [], 0, 0, 0, false⟩
  | some m =>
    if (match m.text with | some t => t.startsWith "RESET" | none => false) then
      handle_reset ext st
    else
      match m.document with
      | none => handle_text_message ext env st m.text
      | some _ => handle_file_upload ext st m

/-- `restrict_to_user_id` (tg_rag_smolagents/utils.py 95–114): the wrapped
handler returns `None` (here `none`) without invoking the inner function
when the update has no effective user or when the user id's string form
differs from the configured identifier; only on a match is the inner
function invoked on the original arguments. -/
def restrict_to_user_id {α : Type} (authorized : String) (func : Update → α)
    (u : Update) : Option α :=
  match u.effective_user with
  | none => none
  | some uid => if toString uid = authorized then some (func u) else none

/-- Replies observable from outside the gate: a skipped handler sends none. -/
def gateReplies (r : Option HandlerOut) : List String :=
  match r with
  | none => []
  | some o => o.replies

/-- Startup validation (`main` checks `TELEGRAM_BOT_TOKEN`, and the
decorator construction at import time checks `ALLOWED_USER_ID`); no other
environment variable is consulted before the first message. -/
def startup_ok (env : Env) : Bool :=
  !(isFalsy env.telegramBotToken) && !(isFalsy env.allowedUserId)

/-! ### The vector store adapter (`configure_qdrant`,
tg_rag_smolagents/utils.py 30–56)

The Qdrant client is external; the adapter's observable protocol is:
`create_collection` raises `ValueError` when a collection of that name
already exists and otherwise records the new collection with its vector
parameters.  `configure_qdrant` attempts creation with size 1024 and cosine
distance and swallows exactly that `ValueError`. -/

/-- Distance metric of a Qdrant collection. -/
inductive Distance where
  | cosine
  | euclid
  | dot
deriving DecidableEq, Repr

/-- Vector parameters of a collection (`VectorParams(size=…, distance=…)`). -/
structure VectorParams where
  size : Nat
  distance : Distance
deriving DecidableEq, Repr

/-- The collections held by one Qdrant client, each with its parameters. -/
structure QdrantState where
  collections : List (String × VectorParams)
deriving DecidableEq, Repr

/-- `client.create_collection`: fails with `ValueError` when the name is
taken, otherwise records the collection. -/
def create_collection (st : QdrantState) (name : String) (cfg : VectorParams) :
    Except String QdrantState :=
  if st.collections.any (fun p => p.1 == name) then
    Except.error "Collection already exists"
  else
    Except.ok ⟨st.collections ++ [(name, cfg)]⟩

/-- The creation step of `configure_qdrant`: try to create the collection
with `size=1024, distance=COSINE`; a `ValueError` (already exists) is caught
and creation is skipped. -/
def configure_qdrant (st : QdrantState) (collectionName : String) : QdrantState :=
  match create_collection st collectionName ⟨1024, Distance.cosine⟩ with
  | Except.ok st2 => st2
  | Except.error _ => st

/-- Parameters of the named collection, if present. -/
def QdrantState.lookup (st : QdrantState) (name : String) : Option VectorParams :=
  (st.collections.find? (fun p => p.1 == name)).map Prod.snd

/-! ### Concrete fixtures used by the witness theorems -/

/-- An empty process state. -/
def st0 : MsgState := ⟨[], 0, []⟩

/-- Concrete external world: empty retrieval, successful delete and insert,
a one-document parse, a length-based tokeniser. -/
def extW : Ext :=
  ⟨fun _ => [], fun _ _ => "answer", fun _ => Except.ok true,
   fun _ => Except.ok [⟨"hello world", "doc"⟩],
   fun s => List.range s.length, fun _ => "chunk text", true⟩

/-- Concrete external world whose retrieval returns one chunk. -/
def extR : Ext :=
  ⟨fun _ => [⟨[1, 2], "m"⟩], fun _ _ => "answer", fun _ => Except.ok true,
   fun _ => Except.ok [⟨"hello world", "doc"⟩],
   fun s => List.range s.length, fun _ => "chunk text", true⟩

/-- Fully configured environment. -/
def envW : Env := ⟨some "tok", some "42", some "key", some "url"⟩

/-- Environment missing both completion credentials. -/
def envBad : Env := ⟨some "tok", some "42", none, none⟩

/-- A concrete inner handler for exercising the authorization gate. -/
def funW : Update → HandlerOut := fun _ => ⟨st0, ["hi"], 0, 0, 0, false⟩

/-- Concrete external world whose parser rejects every file. -/
def extP : Ext :=
  ⟨fun _ => [], fun _ _ => "answer", fun _ => Except.ok true,
   fun _ => Except.error "unsupported format",
   fun s => List.range s.length, fun _ => "chunk text", true⟩

/-- A concrete tokeniser for the chunking witness. -/
def tokW : String → List Nat := fun s => List.range s.length

/-- A concrete parsed document for the chunking witness. -/
def docW : Document := ⟨"abc", "m"⟩

/-- The chunk the pipeline produces from `docW` under `tokW`. -/
def cW : Chunk := ⟨List.range 3, "m"⟩

/-! ## Theorems -/

/-- Claim C10: an inbound update carrying no message payload makes the
handler return immediately: no replies, no completion/parse/insert calls,
no cleanup, and the state (session identifier set and vector store) is
untouched. -/
theorem handle_message_no_payload (ext : Ext) (env : Env) (st : MsgState)
    (u : Update) (h : u.message = none) :
    handle_message ext env st u = ⟨st, [], 0, 0, 0, false⟩ := by
  unfold handle_message
  rw [h]

/-- Witness for C10 at a concrete authorized update with no message. -/
theorem handle_message_no_payload_witness :
    handle_message extW envW st0 ⟨some 42, none⟩ = ⟨st0, [], 0, 0, 0, false⟩ :=
  handle_message_no_payload extW envW st0 ⟨some 42, none⟩ rfl

/-- Claim C3: the gate invokes the wrapped handler (returning its result)
exactly when the update has a sender whose string form equals the
configured identifier; for every non-matching or missing sender the result
is `none` — zero handler invocations and zero replies. -/
theorem restrict_to_user_id_spec (authorized : String)
    (func : Update → HandlerOut) (u : Update) :
    (restrict_to_user_id authorized func u = some (func u) ↔
      ∃ uid, u.effective_user = some uid ∧ toString uid = authorized) ∧
    ((∀ uid, u.effective_user = some uid → toString uid ≠ authorized) →
      restrict_to_user_id authorized func u = none ∧
      gateReplies (restrict_to_user_id authorized func u) = []) := by
  unfold restrict_to_user_id gateReplies
  cases h : u.effective_user with
  | none => simp
  | some uid =>
    by_cases he : toString uid = authorized
    · simp [he]
    · constructor
      · simp [he]
      · intro hall
        simp [he]

/-- Witness for C3: user 42 passes the gate configured with "42"; user 7
does not and produces no replies. -/
theorem restrict_to_user_id_spec_witness :
    restrict_to_user_id "42" funW ⟨some 42, none⟩ = some (funW ⟨some 42, none⟩) ∧
    restrict_to_user_id "42" funW ⟨some 7, none⟩ = none :=
  ⟨(restrict_to_user_id_spec "42" funW ⟨some 42, none⟩).1.mpr ⟨42, rfl, by decide⟩,
   ((restrict_to_user_id_spec "42" funW ⟨some 7, none⟩).2
      (by intro uid h; simp at h; subst h; decide)).1⟩

/-- Claim C2: the reset clears the session identifier set (with the success
reply) exactly when the set was non-empty and the store's bulk delete
reports success; when the delete reports `false` or the set was already
empty, the failure reply is sent and the session set is unchanged. -/
theorem handle_reset_spec (ext : Ext) (st : MsgState) :
    (((handle_reset ext st).state.uuids = [] ∧
      (handle_reset ext st).replies = ["Vector store reset successfully."]) ↔
     (st.uuids ≠ [] ∧ ext.delete st.uuids = Except.ok true)) ∧
    ((st.uuids = [] ∨ ext.delete st.uuids = Except.ok false) →
      (handle_reset ext st).state.uuids = st.uuids ∧
      (handle_reset ext st).replies = ["Failed to reset the vector store."]) := by
  unfold handle_reset
  cases hu : st.uuids with
  | nil => simp [hu]
  | cons a l =>
    cases hd : ext.delete (a :: l) with
    | ok b =>
      cases b with
      | true => simp [hu, hd]
      | false => simp [hu, hd]
    | error e => simp [hu, hd]

/-- Witness for C2: with three session identifiers and a store accepting the
delete, the set is cleared and success is reported; on an empty set the
failure reply is sent and the set stays empty. -/
theorem handle_reset_spec_witness :
    ((handle_reset extW ⟨[1, 2, 3], 3, []⟩).state.uuids = [] ∧
     (handle_reset extW ⟨[1, 2, 3], 3, []⟩).replies =
       ["Vector store reset successfully."]) ∧
    ((handle_reset extW st0).state.uuids = st0.uuids ∧
     (handle_reset extW st0).replies = ["Failed to reset the vector store."]) :=
  ⟨(handle_reset_spec extW ⟨[1, 2, 3], 3, []⟩).1.mpr ⟨by decide, rfl⟩,
   (handle_reset_spec extW st0).2 (Or.inl rfl)⟩

/-- Claim C4: a query with non-falsy text whose retrieval is empty answers
with the no-relevant-documents reply and stops: no completion call, no
state change. -/
theorem empty_retrieval_no_llm (ext : Ext) (env : Env) (st : MsgState)
    (t : String) (ht : t.isEmpty = false) (hr : ext.retrieve t = []) :
    handle_text_message ext env st (some t) =
      ⟨st, ["No relevant documents found for your query."], 0, 0, 0, false⟩ := by
  unfold handle_text_message
  simp only [ht, hr]
  simp

/-- Witness for C4 at a concrete query against the empty retriever. -/
theorem empty_retrieval_no_llm_witness :
    handle_text_message extW envW st0 (some "What does the report say?") =
      ⟨st0, ["No relevant documents found for your query."], 0, 0, 0, false⟩ :=
  empty_retrieval_no_llm extW envW st0 "What does the report say?" rfl rfl

/-- Claim C7: when retrieval is non-empty and a completion credential is
falsy, the query pipeline raises a configuration error at call time — the
completion endpoint is never invoked, the error is reported in that query's
reply, the state is untouched — and startup validation does not consult the
completion credentials at all. -/
theorem missing_creds_call_time (ext : Ext) (env : Env) (st : MsgState)
    (t : String) (d : Chunk) (ds : List Chunk)
    (ht : t.isEmpty = false) (hr : ext.retrieve t = d :: ds)
    (hc : isFalsy env.openaiApiBaseUrl = true ∨ isFalsy env.openaiApiKey = true) :
    (handle_text_message ext env st (some t)).llmCalls = 0 ∧
    (∃ e, query_openai_llm ext env t (d :: ds) = Except.error e ∧
      (handle_text_message ext env st (some t)).replies =
        ["An error occurred while processing your query: " ++ e]) ∧
    (handle_text_message ext env st (some t)).state = st ∧
    (∀ e2 : Env, startup_ok ⟨e2.telegramBotToken, e2.allowedUserId, none, none⟩ =
      startup_ok e2) := by
  have herr : ∃ e, query_openai_llm ext env t (d :: ds) = Except.error e := by
    unfold query_openai_llm
    cases hb : isFalsy env.openaiApiBaseUrl with
    | true => exact ⟨"OpenAI API base URL is missing.", by simp⟩
    | false =>
      cases hk : isFalsy env.openaiApiKey with
      | true => exact ⟨"OpenAI API key is missing.", by simp⟩
      | false => cases hc <;> simp_all
  obtain ⟨e, he⟩ := herr
  have hmsg : handle_text_message ext env st (some t) =
      ⟨st, ["An error occurred while processing your query: " ++ e], 0, 0, 0, false⟩ := by
    unfold handle_text_message
    simp only [ht, hr, he]
    simp
  refine ⟨by rw [hmsg], ⟨e, he, by rw [hmsg]⟩, by rw [hmsg], ?_⟩
  intro e2
  unfold startup_ok
  rfl

/-- Witness for C7: a concrete non-empty retrieval with both credentials
unset yields a configuration-error reply, zero completion calls, and
startup validation is unaffected. -/
theorem missing_creds_call_time_witness :
    (handle_text_message extR envBad st0 (some "q")).llmCalls = 0 ∧
    (∃ e, query_openai_llm extR envBad "q" [⟨[1, 2], "m"⟩] = Except.error e ∧
      (handle_text_message extR envBad st0 (some "q")).replies =
        ["An error occurred while processing your query: " ++ e]) ∧
    (handle_text_message extR envBad st0 (some "q")).state = st0 ∧
    (∀ e2 : Env, startup_ok ⟨e2.telegramBotToken, e2.allowedUserId, none, none⟩ =
      startup_ok e2) :=
  missing_creds_call_time extR envBad st0 "q" ⟨[1, 2], "m"⟩ [] rfl rfl (Or.inl rfl)

/-- Claim C8: input errors are reported without any state mutation — a
document with a missing filename, a missing document, missing text, and
empty text each produce exactly the error reply, zero parser calls, zero
insert calls, zero completion calls, and leave the session identifier set
and the vector store unchanged. -/
theorem input_errors_no_mutation (ext : Ext) (env : Env) (st : MsgState)
    (m : Message) (f : TgDocument) (t : String) :
    (m.document = some f → f.file_name = none →
      handle_file_upload ext st m =
        ⟨st, ["File name is missing."], 0, 0, 0, false⟩) ∧
    (m.document = none →
      handle_file_upload ext st m =
        ⟨st, ["Please send a valid file."], 0, 0, 0, false⟩) ∧
    (handle_text_message ext env st none =
      ⟨st, ["Please send a valid text message."], 0, 0, 0, false⟩) ∧
    (t.isEmpty = true →
      handle_text_message ext env st (some t) =
        ⟨st, ["Please send a valid text message."], 0, 0, 0, false⟩) := by
  refine ⟨?_, ?_, ?_, ?_⟩
  · intro hd hn
    unfold handle_file_upload
    simp only [hd, hn]
  · intro hd
    unfold handle_file_upload
    simp only [hd]
  · rfl
  · intro htt
    unfold handle_text_message
    simp [htt]

/-- Witness for C8 at concrete inputs: nameless attachment, absent
attachment, absent text and empty text. -/
theorem input_errors_no_mutation_witness :
    (handle_file_upload extW st0 ⟨none, some ⟨none⟩⟩ =
      ⟨st0, ["File name is missing."], 0, 0, 0, false⟩) ∧
    (handle_file_upload extW st0 ⟨some "x", none⟩ =
      ⟨st0, ["Please send a valid file."], 0, 0, 0, false⟩) ∧
    (handle_text_message extW envW st0 none =
      ⟨st0, ["Please send a valid text message."], 0, 0, 0, false⟩) ∧
    (handle_text_message extW envW st0 (some "") =
      ⟨st0, ["Please send a valid text message."], 0, 0, 0, false⟩) :=
  ⟨(input_errors_no_mutation extW envW st0 ⟨none, some ⟨none⟩⟩ ⟨none⟩ "").1 rfl rfl,
   (input_errors_no_mutation extW envW st0 ⟨some "x", none⟩ ⟨none⟩ "").2.1 rfl,
   (input_errors_no_mutation extW envW st0 ⟨some "x", none⟩ ⟨none⟩ "").2.2.1,
   (input_errors_no_mutation extW envW st0 ⟨some "x", none⟩ ⟨none⟩ "").2.2.2 rfl⟩

/-- Claim C9: the startup step ensures the collection exists; on a fresh
store it is created with vector size 1024 and cosine distance; running the
step a second time against the resulting store succeeds (the
already-exists failure is swallowed) and leaves the store configuration
unchanged. -/
theorem configure_qdrant_spec (st : QdrantState) (name : String) :
    ((configure_qdrant st name).lookup name).isSome = true ∧
    (st.lookup name = none →
      (configure_qdrant st name).lookup name = some ⟨1024, Distance.cosine⟩) ∧
    configure_qdrant (configure_qdrant st name) name = configure_qdrant st name := by
  cases ha : st.collections.any (fun p => p.1 == name) with
  | true =>
    have hcfg : configure_qdrant st name = st := by
      unfold configure_qdrant create_collection
      rw [ha]
      simp
    have hsome : (st.lookup name).isSome = true := by
      unfold QdrantState.lookup
      rw [Option.isSome_map']
      rw [List.find?_isSome]
      exact List.any_eq_true.mp ha
    refine ⟨by rw [hcfg]; exact hsome, ?_, ?_⟩
    · intro hnone
      rw [hnone] at hsome
      simp at hsome
    · rw [hcfg, hcfg]
  | false =>
    have hnone1 : st.collections.find? (fun p => p.1 == name) = none := by
      rw [List.find?_eq_none]
      intro p hp hpe
      exact absurd (List.any_eq_true.mpr ⟨p, hp, hpe⟩) (by rw [ha]; exact Bool.false_ne_true)
    have hcfg : configure_qdrant st name =
        ⟨st.collections ++ [(name, ⟨1024, Distance.cosine⟩)]⟩ := by
      unfold configure_qdrant create_collection
      rw [ha]
      simp
    have hfind : (configure_qdrant st name).lookup name =
        some ⟨1024, Distance.cosine⟩ := by
      rw [hcfg]
      unfold QdrantState.lookup
      rw [List.find?_append, hnone1]
      simp
    refine ⟨by rw [hfind]; rfl, fun _ => hfind, ?_⟩
    rw [hcfg]
    unfold configure_qdrant create_collection
    simp [List.any_append]

/-- Witness for C9 at a fresh store and the default collection name. -/
theorem configure_qdrant_spec_witness :
    (configure_qdrant ⟨[]⟩ "tg-store").lookup "tg-store" =
      some ⟨1024, Distance.cosine⟩ ∧
    configure_qdrant (configure_qdrant ⟨[]⟩ "tg-store") "tg-store" =
      configure_qdrant ⟨[]⟩ "tg-store" :=
  ⟨(configure_qdrant_spec ⟨[]⟩ "tg-store").2.1 rfl,
   (configure_qdrant_spec ⟨[]⟩ "tg-store").2.2⟩

/-! ### Helper lemmas on the fresh-identifier supply and `update_store` -/

theorem freshIds_length (a n : Nat) : (freshIds a n).length = n := by
  simp [freshIds]

theorem freshIds_nodup (a n : Nat) : (freshIds a n).Nodup := by
  unfold freshIds
  exact List.Nodup.map (fun x y h => by omega) (List.nodup_range _)

theorem mem_freshIds {a n k : Nat} : k ∈ freshIds a n ↔ a ≤ k ∧ k < a + n := by
  unfold freshIds
  simp only [List.mem_map, List.mem_range]
  constructor
  · rintro ⟨i, hi, rfl⟩
    omega
  · rintro ⟨h1, h2⟩
    exact ⟨k - a, by omega, by omega⟩

theorem update_store_eq_ok (ext : Ext) (n : Nat) (docs : List Document)
    (h : ext.insertOk = true) :
    update_store ext n docs =
      Except.ok ((freshIds n (split_documents ext.tokenize docs).length).zip
          (split_documents ext.tokenize docs),
        n + (split_documents ext.tokenize docs).length) := by
  unfold update_store
  rw [h]
  simp

theorem update_store_eq_error (ext : Ext) (n : Nat) (docs : List Document)
    (h : ext.insertOk = false) :
    update_store ext n docs = Except.error "insert failed" := by
  unfold update_store
  rw [h]
  simp

/-- Claim C5: a successful ingestion assigns one fresh identifier per chunk,
pairwise distinct and never previously assigned in the session, pairs every
produced chunk with its identifier, and appends to the session identifier
set exactly the key set of the returned mapping. -/
theorem fresh_ids_spec (ext : Ext) (st : MsgState) (m : Message)
    (f : TgDocument) (name : String) (docs : List Document)
    (hdoc : m.document = some f) (hname : f.file_name = some name)
    (hparse : ext.parse name = Except.ok docs) (hins : ext.insertOk = true)
    (hinv : ∀ u ∈ st.uuids, u < st.nextId) :
    ∃ mapping n2,
      update_store ext st.nextId docs = Except.ok (mapping, n2) ∧
      (mapping.map Prod.fst).Nodup ∧
      (∀ k ∈ mapping.map Prod.fst, k ∉ st.uuids) ∧
      mapping.map Prod.snd = split_documents ext.tokenize docs ∧
      (handle_file_upload ext st m).state.uuids =
        st.uuids ++ mapping.map Prod.fst := by
  have hupd := update_store_eq_ok ext st.nextId docs hins
  have hlen : (freshIds st.nextId (split_documents ext.tokenize docs).length).length =
      (split_documents ext.tokenize docs).length := freshIds_length _ _
  have hfst : ((freshIds st.nextId (split_documents ext.tokenize docs).length).zip
      (split_documents ext.tokenize docs)).map Prod.fst =
      freshIds st.nextId (split_documents ext.tokenize docs).length :=
    List.map_fst_zip _ _ (by rw [hlen])
  refine ⟨_, _, hupd, ?_, ?_, ?_, ?_⟩
  · rw [hfst]
    exact freshIds_nodup _ _
  · rw [hfst]
    intro k hk hk2
    have h1 := mem_freshIds.mp hk
    have h2 := hinv k hk2
    omega
  · exact List.map_snd_zip _ _ (by rw [hlen])
  · unfold handle_file_upload
    simp only [hdoc, hname, hparse, hupd]

/-- Witness for C5: ingesting one concrete document into an empty session. -/
theorem fresh_ids_spec_witness :
    ∃ mapping n2,
      update_store extW st0.nextId [⟨"hello world", "doc"⟩] =
        Except.ok (mapping, n2) ∧
      (mapping.map Prod.fst).Nodup ∧
      (∀ k ∈ mapping.map Prod.fst, k ∉ st0.uuids) ∧
      mapping.map Prod.snd = split_documents extW.tokenize [⟨"hello world", "doc"⟩] ∧
      (handle_file_upload extW st0 ⟨none, some ⟨some "notes.pdf"⟩⟩).state.uuids =
        st0.uuids ++ mapping.map Prod.fst :=
  fresh_ids_spec extW st0 ⟨none, some ⟨some "notes.pdf"⟩⟩ ⟨some "notes.pdf"⟩
    "notes.pdf" [⟨"hello world", "doc"⟩] rfl rfl rfl rfl
    (by intro u hu; simp [st0] at hu)

set_option maxRecDepth 8192 in
/-- Counterexample to C1 as stated: a fully successful upload (valid name,
parse succeeds, indexing succeeds) completes with its success replies while
`cleanup_file` never runs — the uploaded file is not deleted on the success
path. -/
theorem upload_success_no_cleanup :
    (handle_file_upload extW st0 ⟨none, some ⟨some "notes.pdf"⟩⟩).replies =
      ["File 'notes.pdf' received. Processing...",
       "File processed successfully! Here's a preview:\n",
       "- 0: chunk text...\n"] ∧
    (handle_file_upload extW st0 ⟨none, some ⟨some "notes.pdf"⟩⟩).cleaned = false := by
  constructor <;> decide

/-- Claim C1 (amended): for an upload with a valid attachment and filename,
the uploaded file is deleted exactly when processing fails (parse error or
indexing error); on the success path no cleanup runs. -/
theorem cleanup_iff_failure (ext : Ext) (st : MsgState) (m : Message)
    (f : TgDocument) (name : String)
    (hdoc : m.document = some f) (hname : f.file_name = some name) :
    (handle_file_upload ext st m).cleaned = true ↔
      ((∃ e, ext.parse name = Except.error e) ∨ ext.insertOk = false) := by
  cases hp : ext.parse name with
  | error e =>
    have hc : (handle_file_upload ext st m).cleaned = true := by
      unfold handle_file_upload
      simp only [hdoc, hname, hp]
    rw [hc]
    simp
  | ok docs =>
    cases hi : ext.insertOk with
    | true =>
      have hc : (handle_file_upload ext st m).cleaned = false := by
        unfold handle_file_upload
        simp only [hdoc, hname, hp, update_store_eq_ok ext st.nextId docs hi]
      rw [hc]
      simp
    | false =>
      have hc : (handle_file_upload ext st m).cleaned = true := by
        unfold handle_file_upload
        simp only [hdoc, hname, hp, update_store_eq_error ext st.nextId docs hi]
      rw [hc]
      simp

/-- Witness for the amended C1: a parse failure triggers cleanup. -/
theorem cleanup_iff_failure_witness :
    (handle_file_upload extP st0 ⟨none, some ⟨some "notes.pdf"⟩⟩).cleaned = true :=
  (cleanup_iff_failure extP st0 ⟨none, some ⟨some "notes.pdf"⟩⟩ ⟨some "notes.pdf"⟩
    "notes.pdf" rfl rfl).mpr (Or.inl ⟨"unsupported format", rfl⟩)

/-! ### Helper lemmas on the sliding-window splitter -/

theorem splitTokensGo_length_le (chunkSize stride : Nat) (hs : 1 ≤ stride) :
    ∀ (fuel : Nat) (ts : List Nat), ts.length ≤ fuel + chunkSize →
      ∀ c ∈ splitTokensGo chunkSize stride fuel ts, c.length ≤ chunkSize := by
  intro fuel
  induction fuel with
  | zero =>
    intro ts hts c hc
    match ts, hc with
    | [], hc => simp [splitTokensGo] at hc
    | t :: ts2, hc =>
      simp [splitTokensGo] at hc
      subst hc
      simpa using hts
  | succ n ih =>
    intro ts hts c hc
    match ts, hc with
    | [], hc => simp [splitTokensGo] at hc
    | t :: ts2, hc =>
      simp only [List.length_cons] at hts
      by_cases h : ts2.length + 1 ≤ chunkSize
      · simp only [splitTokensGo, List.length_cons, if_pos h,
          List.mem_singleton] at hc
        subst hc
        simpa using h
      · simp only [splitTokensGo, List.length_cons, if_neg h, List.mem_cons] at hc
        rcases hc with hc | hc
        · subst hc
          exact List.length_take_le _ _
        · refine ih ((t :: ts2).drop stride) ?_ c hc
          have hd := List.length_drop stride (t :: ts2)
          simp only [List.length_cons] at hd
          omega

theorem splitTokensGo_head (chunkSize stride : Nat) :
    ∀ (fuel : Nat) (ts : List Nat), ts ≠ [] → ts.length ≤ fuel + chunkSize →
      ∃ r, splitTokensGo chunkSize stride fuel ts = ts.take chunkSize :: r := by
  intro fuel
  cases fuel with
  | zero =>
    intro ts hne hts
    match ts with
    | [] => exact absurd rfl hne
    | t :: ts2 =>
      refine ⟨[], ?_⟩
      rw [List.take_of_length_le (by simpa using hts)]
      rfl
  | succ n =>
    intro ts hne hts
    match ts with
    | [] => exact absurd rfl hne
    | t :: ts2 =>
      by_cases h : ts2.length + 1 ≤ chunkSize
      · refine ⟨[], ?_⟩
        rw [List.take_of_length_le (by simpa using h)]
        simp only [splitTokensGo, List.length_cons, if_pos h]
      · refine ⟨splitTokensGo chunkSize stride n ((t :: ts2).drop stride), ?_⟩
        simp only [splitTokensGo, List.length_cons, if_neg h]

theorem splitTokensGo_chain (chunkSize stride : Nat) (h1 : 1 ≤ stride)
    (h2 : stride ≤ chunkSize) :
    ∀ (fuel : Nat) (ts : List Nat), ts.length ≤ fuel + chunkSize →
      List.Chain' (fun a b : List Nat =>
        (a.drop stride).length ≤ chunkSize - stride ∧ a.drop stride <+: b)
        (splitTokensGo chunkSize stride fuel ts) := by
  intro fuel
  induction fuel with
  | zero =>
    intro ts hts
    match ts with
    | [] => simp [splitTokensGo]
    | t :: ts2 => exact List.chain'_singleton _
  | succ n ih =>
    intro ts hts
    match ts with
    | [] => simp [splitTokensGo]
    | t :: ts2 =>
      simp only [List.length_cons] at hts
      by_cases h : ts2.length + 1 ≤ chunkSize
      · simp only [splitTokensGo, List.length_cons, if_pos h]
        exact List.chain'_singleton _
      · simp only [splitTokensGo, List.length_cons, if_neg h]
        have hd := List.length_drop stride (t :: ts2)
        simp only [List.length_cons] at hd
        have hlend : ((t :: ts2).drop stride).length ≤ n + chunkSize := by omega
        rw [List.chain'_cons']
        refine ⟨?_, ih ((t :: ts2).drop stride) hlend⟩
        intro y hy
        have hne : (t :: ts2).drop stride ≠ [] := by
          intro hemp
          rw [hemp] at hd
          simp only [List.length_nil] at hd
          omega
        obtain ⟨r, hr⟩ := splitTokensGo_head chunkSize stride n ((t :: ts2).drop stride) hne hlend
        rw [hr] at hy
        simp only [List.head?_cons, Option.mem_def, Option.some.injEq] at hy
        subst hy
        constructor
        · simp only [List.length_drop, List.length_take, List.length_cons]
          omega
        · rw [List.drop_take]
          have hmin : ((t :: ts2).drop stride).take (chunkSize - stride) =
              (((t :: ts2).drop stride).take chunkSize).take (chunkSize - stride) := by
            rw [List.take_take, Nat.min_eq_left (Nat.sub_le _ _)]
          rw [hmin]
          exact ⟨(((t :: ts2).drop stride).take chunkSize).drop (chunkSize - stride),
            List.take_append_drop _ _⟩

theorem splitTokens_512_size (ts : List Nat) :
    ∀ c ∈ splitTokens 512 462 ts, c.length ≤ 512 :=
  splitTokensGo_length_le 512 462 (by omega) ts.length ts (by omega)

theorem splitTokens_512_chain (ts : List Nat) :
    List.Chain' (fun a b : List Nat =>
      (a.drop 462).length ≤ 50 ∧ a.drop 462 <+: b) (splitTokens 512 462 ts) := by
  have h := splitTokensGo_chain 512 462 (by omega) (by omega) ts.length ts (by omega)
  exact h

/-- Claim C6: under the splitter configuration the ingestion pipeline uses
(`tokens_per_chunk=512`, `chunk_overlap=50`), every produced chunk has at
most 512 tokens, and within each document consecutive chunks overlap in at
most 50 tokens (the tail of a chunk beyond the 462-token stride — at most
50 tokens — is a prefix of the next chunk). -/
theorem chunk_size_overlap (tok : String → List Nat) (docs : List Document) :
    (∀ c ∈ split_documents tok docs, c.tokens.length ≤ 512) ∧
    (∀ d ∈ docs, List.Chain' (fun a b : Chunk =>
      (a.tokens.drop 462).length ≤ 50 ∧ a.tokens.drop 462 <+: b.tokens)
      (docChunks tok d)) := by
  constructor
  · intro c hc
    unfold split_documents at hc
    rw [List.mem_flatMap] at hc
    obtain ⟨d, hd, hcd⟩ := hc
    unfold docChunks at hcd
    rw [List.mem_map] at hcd
    obtain ⟨ts, hts, rfl⟩ := hcd
    exact splitTokens_512_size _ ts hts
  · intro d hd
    unfold docChunks
    rw [List.chain'_map]
    exact splitTokens_512_chain _

/-- Witness for C6: the concrete document `docW` yields a chunk of at most
512 tokens and an overlap-correct chunk sequence. -/
theorem chunk_size_overlap_witness :
    cW.tokens.length ≤ 512 ∧
    List.Chain' (fun a b : Chunk =>
      (a.tokens.drop 462).length ≤ 50 ∧ a.tokens.drop 462 <+: b.tokens)
      (docChunks tokW docW) :=
  ⟨(chunk_size_overlap tokW [docW]).1 cW (by decide),
   (chunk_size_overlap tokW [docW]).2 docW (by decide)⟩

end TgRag
